import Mathlib

/-!
Verification of the per-session browser core in
`app/infrastructure/external/browser/playwright_browser.py` (class
`PlaywrightBrowser`) against its natural-language specification.

The Python code is embedded shallowly: the remote browser is an oracle
(environment records supplying the outcome of each remote call), the
per-session mutable attributes of `PlaywrightBrowser` become an explicit
`SessionState`, remote side effects are recorded in an `Action` trace, and
an uncaught Python exception is `Except.error`.
-/

namespace PlaywrightBrowser

/-- Payloads that appear in `ToolResult.data` for the operations modelled
here (`navigate` returns a dict with key interactive_elements). -/
inductive ResultData where
  | interactiveElements (els : List String)
deriving Repr, DecidableEq

/-- Modelled from the spec: `ToolResult` (defined in
`app/domain/models/tool_result.py`, which is not part of the sources) is
the uniform envelope: success flag, optional message, optional data. -/
structure ToolResult where
  success : Bool
  message : Option String
  data : Option ResultData
deriving Repr, DecidableEq

/-- Bounding client rect of a DOM element (getBoundingClientRect). -/
structure Rect where
  width : Int
  height : Int
  top : Int
  bottom : Int
  left : Int
  right : Int
deriving Repr, DecidableEq

/-- Computed style fields the indexing script inspects. -/
structure Style where
  display : String
  visibility : String
  opacity : String
deriving Repr, DecidableEq

/-- A candidate DOM element as observed by the JavaScript run by
`_extract_interactive_elements`.  String fields model the corresponding
DOM properties, with the empty string standing for a JS-falsy value.
`labelFor` is the inner text of a label matched by `label[for=id]` when
such a label element exists; `closestLabel` is the inner text of the
nearest enclosing label element, when one exists. -/
structure DomElement where
  tagName : String
  rect : Rect
  style : Style
  value : String
  innerText : String
  alt : String
  title : String
  placeholder : String
  typeAttr : String
  id : String
  labelFor : Option String
  closestLabel : Option String
deriving Repr, DecidableEq

/-- Viewport dimensions (window.innerHeight / window.innerWidth). -/
structure Viewport where
  height : Int
  width : Int
deriving Repr, DecidableEq

/-- First filter of the indexing script: the element must have non-zero
width and height. -/
def hasZeroSize (e : DomElement) : Bool :=
  e.rect.width == 0 || e.rect.height == 0

/-- Second filter: the element's rect must intersect the viewport. -/
def outsideViewport (vp : Viewport) (e : DomElement) : Bool :=
  e.rect.bottom < 0 || e.rect.top > vp.height || e.rect.right < 0 || e.rect.left > vp.width

/-- Third filter: computed style must not hide the element. -/
def hiddenByCss (e : DomElement) : Bool :=
  e.style.display == "none" || e.style.visibility == "hidden" || e.style.opacity == "0"

/-- Conjunction of the three filters applied by both extraction scripts. -/
def passesFilters (vp : Viewport) (e : DomElement) : Bool :=
  !hasZeroSize e && !outsideViewport vp e && !hiddenByCss e

theorem length_dropWhile_le {α : Type} (p : α → Bool) (l : List α) :
    (l.dropWhile p).length ≤ l.length := by
  induction l with
  | nil => simp [List.dropWhile]
  | cons a l ih =>
    rw [List.dropWhile]
    cases p a
    · simp
    · simpa using Nat.le_succ_of_le ih

/-- Collapse every maximal run of whitespace to a single space, as the JS
`replace(\x7b regex \s+ global \x7d, single space)` does. -/
def collapseWsAux : List Char → List Char
  | [] => []
  | c :: cs =>
    if c.isWhitespace then
      ' ' :: collapseWsAux (cs.dropWhile Char.isWhitespace)
    else c :: collapseWsAux cs
termination_by l => l.length
decreasing_by
  · exact Nat.lt_succ_of_le (length_dropWhile_le _ _)
  · exact Nat.lt_succ_of_le (Nat.le_refl _)

/-- String version of `collapseWsAux`. -/
def collapseWs (s : String) : String :=
  String.mk (collapseWsAux s.data)

/-- JS String.replace with a plain-string pattern replaces only the first
occurrence. -/
def replaceFirst (s pat repl : String) : String :=
  if pat = "" then s
  else
    match s.splitOn pat with
    | [] => s
    | [x] => x
    | x :: rest => x ++ repl ++ String.intercalate pat rest

/-- Label text lookup used in the value-bearing input branch of the
indexing script: first a `label[for=id]` lookup (trimmed), then, if that
gave nothing, the closest enclosing label's text with the element's value
removed (first occurrence) and re-trimmed. -/
def inputLabelTextValued (e : DomElement) : String :=
  let byFor :=
    if e.id ≠ "" then
      match e.labelFor with
      | some t => t.trim
      | none => ""
    else ""
  if byFor ≠ "" then byFor
  else
    match e.closestLabel with
    | some t => (replaceFirst t.trim e.value "").trim
    | none => ""

/-- Label text lookup used in the type-fallback branch: same as
`inputLabelTextValued` but the closest-label text is only trimmed, with no
value removal. -/
def inputLabelTextPlain (e : DomElement) : String :=
  let byFor :=
    if e.id ≠ "" then
      match e.labelFor with
      | some t => t.trim
      | none => ""
    else ""
  if byFor ≠ "" then byFor
  else
    match e.closestLabel with
    | some t => t.trim
    | none => ""

/-- Text derivation of the indexing script, following its branch order:
value of a form control (enriched with label and placeholder for inputs),
else collapsed inner text, else alt, else title, else placeholder, else a
bracketed type fallback (also enriched for inputs), else the no-text
sentinel. -/
def deriveText (e : DomElement) : String :=
  let tag := e.tagName.toLower
  if e.value ≠ "" && (tag == "input" || tag == "textarea" || tag == "select") then
    let text := e.value
    if tag == "input" then
      let labelText := inputLabelTextValued e
      let text :=
        if labelText ≠ "" then "[Label: " ++ labelText ++ "] " ++ text else text
      if e.placeholder ≠ "" then text ++ " [Placeholder: " ++ e.placeholder ++ "]"
      else text
    else text
  else if e.innerText ≠ "" then collapseWs e.innerText.trim
  else if e.alt ≠ "" then e.alt
  else if e.title ≠ "" then e.title
  else if e.placeholder ≠ "" then "[Placeholder: " ++ e.placeholder ++ "]"
  else if e.typeAttr ≠ "" then
    let text := "[" ++ e.typeAttr ++ "]"
    if tag == "input" then
      let labelText := inputLabelTextPlain e
      let text :=
        if labelText ≠ "" then "[Label: " ++ labelText ++ "] " ++ text else text
      if e.placeholder ≠ "" then text ++ " [Placeholder: " ++ e.placeholder ++ "]"
      else text
    else text
  else "[No text]"

/-- Texts longer than 100 characters are cut to 97 plus an ellipsis. -/
def truncateText (s : String) : String :=
  if s.length > 100 then s.take 97 ++ "..." else s

/-- Value of the marker attribute data-manus-id for index `i`. -/
def manusId (i : Nat) : String :=
  "manus-element-" ++ toString i

/-- Attribute selector built from the marker attribute for index `i`. -/
def manusSelector (i : Nat) : String :=
  "[data-manus-id=\"" ++ manusId i ++ "\"]"

/-- One entry of the interactive-element snapshot, as pushed by the
indexing script: index, lowercased tag, derived text, marker selector. -/
structure IEntry where
  index : Nat
  tag : String
  text : String
  selector : String
deriving Repr, DecidableEq

/-- Entry built for a surviving element at index `i`. -/
def mkEntry (e : DomElement) (i : Nat) : IEntry :=
  { index := i
    tag := e.tagName.toLower
    text := truncateText (deriveText e)
    selector := manusSelector i }

/-- Record of the setAttribute side effect: the element together with the
data-manus-id value written onto it. -/
structure TaggedElement where
  elem : DomElement
  dataManusId : String
deriving Repr, DecidableEq

/-- Core loop of the indexing script: walk the candidate list in document
order, skip elements failing the filters, and give each survivor the next
value of the running counter (validElementIndex), tagging it with the
marker attribute and pushing its entry. -/
def scanElements (vp : Viewport) : List DomElement → Nat → List (IEntry × TaggedElement)
  | [], _ => []
  | e :: rest, i =>
    if passesFilters vp e then
      (mkEntry e i, ⟨e, manusId i⟩) :: scanElements vp rest (i + 1)
    else scanElements vp rest i

/-- Display format of one snapshot entry, index:<tag>text</tag>. -/
def formatEntry (e : IEntry) : String :=
  toString e.index ++ ":<" ++ e.tag ++ ">" ++ e.text ++ "</" ++ e.tag ++ ">"

theorem scanElements_indices (vp : Viewport) (es : List DomElement) :
    ∀ k : Nat,
      (scanElements vp es k).map (fun p => p.1.index)
        = List.range' k (scanElements vp es k).length := by
  induction es with
  | nil => intro k; simp [scanElements]
  | cons e rest ih =>
    intro k
    by_cases h : passesFilters vp e
    · simp [scanElements, h, List.range'_succ, ih (k + 1), mkEntry]
    · simp [scanElements, h, ih k]

theorem scanElements_markers (vp : Viewport) (es : List DomElement) :
    ∀ k : Nat,
      (scanElements vp es k).map (fun p => p.2.dataManusId)
        = (List.range' k (scanElements vp es k).length).map manusId := by
  induction es with
  | nil => intro k; simp [scanElements]
  | cons e rest ih =>
    intro k
    by_cases h : passesFilters vp e
    · simp [scanElements, h, List.range'_succ, ih (k + 1)]
    · simp [scanElements, h, ih k]

theorem scanElements_selectors (vp : Viewport) (es : List DomElement) :
    ∀ k : Nat,
      (scanElements vp es k).map (fun p => p.1.selector)
        = (List.range' k (scanElements vp es k).length).map manusSelector := by
  induction es with
  | nil => intro k; simp [scanElements]
  | cons e rest ih =>
    intro k
    by_cases h : passesFilters vp e
    · simp [scanElements, h, List.range'_succ, ih (k + 1), mkEntry]
    · simp [scanElements, h, ih k]

theorem scanElements_elems (vp : Viewport) (es : List DomElement) :
    ∀ k : Nat,
      (scanElements vp es k).map (fun p => p.2.elem)
        = es.filter (passesFilters vp) := by
  induction es with
  | nil => intro k; simp [scanElements]
  | cons e rest ih =>
    intro k
    by_cases h : passesFilters vp e
    · simp [scanElements, h, List.filter_cons, ih (k + 1)]
    · simp [scanElements, h, List.filter_cons, ih k]

/-- C1: within one indexing call the produced indices start at 0 and are
exactly 0,1,2,... in encounter order (hence pairwise distinct), the
surviving elements are precisely those passing the filters, and the i-th
survivor is tagged with marker value manus-element-i while its snapshot
entry carries the matching marker selector. -/
theorem extract_indices_consecutive_and_marked (vp : Viewport) (es : List DomElement) :
    (scanElements vp es 0).map (fun p => p.1.index)
        = List.range (scanElements vp es 0).length
    ∧ ((scanElements vp es 0).map (fun p => p.1.index)).Nodup
    ∧ (scanElements vp es 0).map (fun p => p.2.dataManusId)
        = (List.range (scanElements vp es 0).length).map manusId
    ∧ (scanElements vp es 0).map (fun p => p.1.selector)
        = (List.range (scanElements vp es 0).length).map manusSelector
    ∧ (scanElements vp es 0).map (fun p => p.2.elem)
        = es.filter (passesFilters vp) := by
  refine ⟨?_, ?_, ?_, ?_, ?_⟩
  · rw [List.range_eq_range']; exact scanElements_indices vp es 0
  · rw [scanElements_indices vp es 0]
    exact List.nodup_range' _ _
  · rw [List.range_eq_range']; exact scanElements_markers vp es 0
  · rw [List.range_eq_range']; exact scanElements_selectors vp es 0
  · exact scanElements_elems vp es 0

/-- State of the page attached to a session: its identity, the closed
flag (is_closed), and the interactive_elements_cache attribute set on the
page object by the indexer (none while the attribute was never set, so
hasattr is false). -/
structure PageState where
  id : Nat
  isClosed : Bool
  cache : Option (List IEntry)
deriving Repr, DecidableEq

/-- Mutable attributes of a `PlaywrightBrowser` instance: browser,
context, page, playwright (all None-able references, identities as Nat
ids) and the _connected_over_cdp flag. -/
structure SessionState where
  browser : Option Nat
  context : Option Nat
  page : Option PageState
  playwright : Option Nat
  connectedOverCdp : Bool
deriving Repr, DecidableEq

/-- Remote side effects issued by the operations, in order. -/
inductive Action where
  | closePage
  | closeContext
  | closeBrowser
  | stopPlaywright
  | startPlaywright
  | connectOverCdp
  | newContext
  | newPage
  | clearCache
  | gotoUrl (url : String)
  | mouseClick (x y : Int)
  | scrollIntoView (h : Nat)
  | sleep (secs : Nat)
  | elementClickTimeout (h : Nat)
  | elementClick (h : Nat)
  | fillClear (h : Nat)
  | typeOn (h : Nat) (s : String)
  | keyboardType (s : String)
  | pressKey (k : String)
deriving Repr, DecidableEq

/-- Which of the remote close/stop calls made by `cleanup` raise. -/
structure CleanupEnv where
  pageCloseFails : Bool
  contextCloseFails : Bool
  browserCloseFails : Bool
  playwrightStopFails : Bool
deriving Repr, DecidableEq

/-- Outcome of one remote close/stop call, before the try/except around
it discards any error. -/
def closeOutcome (fails : Bool) : Except String Unit :=
  if fails then Except.error ("close failed") else Except.ok ()

/-- Embeds `cleanup`: close page (if present and not already closed) then
context, each close wrapped in try/except that discards the outcome; when
_connected_over_cdp is false additionally close the browser and stop the
playwright runtime, likewise each wrapped; finally reset page and context
to None, and reset browser and playwright to None only when not connected
over CDP.  The whole body never propagates an exception. -/
def cleanup (env : CleanupEnv) (st : SessionState) : SessionState × List Action :=
  let pageActs :=
    match st.page with
    | some p =>
      if p.isClosed then []
      else
        match closeOutcome env.pageCloseFails with
        | _ => [Action.closePage]
    | none => []
  let ctxActs :=
    if st.context.isSome then
      match closeOutcome env.contextCloseFails with
      | _ => [Action.closeContext]
    else []
  let ownActs :=
    if st.connectedOverCdp then []
    else
      (if st.browser.isSome then
        match closeOutcome env.browserCloseFails with
        | _ => [Action.closeBrowser]
      else []) ++
      (if st.playwright.isSome then
        match closeOutcome env.playwrightStopFails with
        | _ => [Action.stopPlaywright]
      else [])
  let st1 : SessionState :=
    { st with
      page := none
      context := none
      browser := if st.connectedOverCdp then st.browser else none
      playwright := if st.connectedOverCdp then st.playwright else none }
  (st1, pageActs ++ ctxActs ++ ownActs)

/-- Point inside one connection attempt at which the remote call raises:
async_playwright().start(), connect_over_cdp, new_context, or
new_page. -/
inductive Stage where
  | startPw
  | connect
  | newCtx
  | newPg
deriving Repr, DecidableEq

/-- Oracle for the connection attempts of the initialization loop:
`failStage k` is the stage at which attempt `k` raises (none when the
attempt succeeds), and the id functions give the identities of the
runtime, browser connection, context and page that attempt `k` creates. -/
structure InitEnv where
  failStage : Nat → Option Stage
  pwId : Nat → Nat
  brId : Nat → Nat
  ctxId : Nat → Nat
  pgId : Nat → Nat

/-- One connection attempt of the initialization loop, mutating the
session attributes exactly as far as the failing stage allows: start sets
playwright, connect sets browser and the CDP flag, then a fresh context
and a fresh page are created. -/
def runAttempt (env : InitEnv) (k : Nat) (st : SessionState) :
    Bool × SessionState × List Action :=
  if env.failStage k = some Stage.startPw then (false, st, [Action.startPlaywright])
  else
    let st1 := { st with playwright := some (env.pwId k) }
    if env.failStage k = some Stage.connect then
      (false, st1, [Action.startPlaywright, Action.connectOverCdp])
    else
      let st2 := { st1 with browser := some (env.brId k), connectedOverCdp := true }
      if env.failStage k = some Stage.newCtx then
        (false, st2, [Action.startPlaywright, Action.connectOverCdp, Action.newContext])
      else
        let st3 := { st2 with context := some (env.ctxId k) }
        if env.failStage k = some Stage.newPg then
          (false, st3,
            [Action.startPlaywright, Action.connectOverCdp, Action.newContext, Action.newPage])
        else
          (true, { st3 with page := some ⟨env.pgId k, false, none⟩ },
            [Action.startPlaywright, Action.connectOverCdp, Action.newContext, Action.newPage])

/-- Result of the initialization loop: the returned boolean, the final
session attributes, the trace, the sleeps performed (seconds), and how
many attempts ran. -/
structure InitResult where
  ok : Bool
  state : SessionState
  actions : List Action
  sleeps : List Nat
  attempts : Nat
deriving Repr, DecidableEq

/-- Embeds the for-loop of `initialize`: `remaining` counts the loop
iterations still allowed (the Python loop runs `attempt` from 0 to 4, and
the `attempt == max_retries - 1` test is `remaining = 1` here, i.e. the
0-case of the inner check), `retryDelay` is the current backoff value.  A
failed attempt is followed by a best-effort `cleanup`; on the last
iteration the loop returns False, otherwise the delay is doubled, capped
at 10, slept, and the loop continues. -/
def initLoop (env : InitEnv) (cenv : CleanupEnv) :
    Nat → Nat → Nat → SessionState → InitResult
  | 0, _, _, st => ⟨false, st, [], [], 0⟩
  | remaining + 1, attempt, retryDelay, st =>
    match runAttempt env attempt st with
    | (true, st1, acts) => ⟨true, st1, acts, [], 1⟩
    | (false, st1, acts) =>
      let cres := cleanup cenv st1
      if remaining = 0 then ⟨false, cres.1, acts ++ cres.2, [], 1⟩
      else
        let d := min (retryDelay * 2) 10
        let r := initLoop env cenv remaining (attempt + 1) d cres.1
        ⟨r.ok, r.state, acts ++ cres.2 ++ Action.sleep d :: r.actions, d :: r.sleeps, r.attempts + 1⟩

/-- Embeds `initialize`: max_retries = 5, initial retry_delay = 1 second.
Returns the boolean the Python function returns; it never raises. -/
def initSession (env : InitEnv) (cenv : CleanupEnv) (st : SessionState) : InitResult :=
  initLoop env cenv 5 0 1 st

/-- Sleep sequence produced by the backoff loop when every attempt fails,
starting from the given current delay with the given iterations left. -/
def backoffDelays (delay : Nat) : Nat → List Nat
  | 0 => []
  | 1 => []
  | n + 2 =>
    let d := min (delay * 2) 10
    d :: backoffDelays d (n + 1)

theorem runAttempt_fails (env : InitEnv) (k : Nat) (st : SessionState)
    (h : (env.failStage k).isSome) :
    (runAttempt env k st).1 = false := by
  obtain ⟨s, hs⟩ := Option.isSome_iff_exists.mp h
  cases s <;> simp [runAttempt, hs]

theorem initLoop_all_fail (env : InitEnv) (cenv : CleanupEnv)
    (h : ∀ k, (env.failStage k).isSome) :
    ∀ remaining attempt retryDelay st, 1 ≤ remaining →
      (initLoop env cenv remaining attempt retryDelay st).ok = false
      ∧ (initLoop env cenv remaining attempt retryDelay st).attempts = remaining
      ∧ (initLoop env cenv remaining attempt retryDelay st).sleeps
          = backoffDelays retryDelay remaining := by
  intro remaining
  induction remaining with
  | zero => intro _ _ _ hle; omega
  | succ n ih =>
    intro attempt retryDelay st _
    rcases hr : runAttempt env attempt st with ⟨b, st1, acts⟩
    have hb : b = false := by
      have hf := runAttempt_fails env attempt st (h attempt)
      rw [hr] at hf
      exact hf
    subst hb
    cases n with
    | zero => simp [initLoop, hr, backoffDelays]
    | succ m =>
      have hn : 1 ≤ m + 1 := by omega
      have := ih attempt.succ (min (retryDelay * 2) 10) (cleanup cenv st1).1 hn
      simp only [initLoop, hr] at *
      simp_all [backoffDelays]

/-- C3 counterexample environment: every attempt fails at the CDP
connection stage. -/
def allFailEnv : InitEnv :=
  ⟨fun _ => some Stage.connect, fun k => k, fun k => k, fun k => k, fun k => k⟩

/-- Cleanup environment in which no close call fails. -/
def quietCleanupEnv : CleanupEnv :=
  ⟨false, false, false, false⟩

/-- Fresh, never-initialized session state. -/
def freshState : SessionState :=
  ⟨none, none, none, none, false⟩

/-- C3 counterexample: when every connection attempt fails, the sleeps
actually performed are 2s, 4s, 8s, 10s — the delay is doubled before the
first sleep, so no 1-second sleep ever occurs and the claimed schedule
1s,2s,4s,8s,10s is not the one executed. -/
theorem initialize_sleeps_counterexample :
    (initSession allFailEnv quietCleanupEnv freshState).sleeps = [2, 4, 8, 10]
    ∧ ([2, 4, 8, 10] : List Nat) ≠ [1, 2, 4, 8, 10] := by
  constructor
  · rfl
  · decide

/-- C3 (amended): when every connection attempt fails, `initialize` makes
exactly 5 attempts, sleeping 2s, 4s, 8s, 10s between them (the 1-second
initial delay is doubled, with a 10-second cap, before each sleep
including the first), and finally returns the boolean false instead of
raising. -/
theorem initialize_retry_schedule (env : InitEnv) (cenv : CleanupEnv) (st : SessionState)
    (h : ∀ k, (env.failStage k).isSome) :
    (initSession env cenv st).ok = false
    ∧ (initSession env cenv st).attempts = 5
    ∧ (initSession env cenv st).sleeps = [2, 4, 8, 10] := by
  have := initLoop_all_fail env cenv h 5 0 1 st (by omega)
  simpa [initSession, backoffDelays] using this

/-- Witness for C3: the amended schedule realized on a concrete
all-failing environment. -/
theorem initialize_retry_schedule_witness :
    (∀ k, (allFailEnv.failStage k).isSome)
    ∧ (initSession allFailEnv quietCleanupEnv freshState).ok = false
    ∧ (initSession allFailEnv quietCleanupEnv freshState).attempts = 5
    ∧ (initSession allFailEnv quietCleanupEnv freshState).sleeps = [2, 4, 8, 10] :=
  ⟨fun _ => rfl, initialize_retry_schedule allFailEnv quietCleanupEnv freshState fun _ => rfl⟩

/-- C4: cleanup always empties the page and context references; on a
CDP-connected (shared-link) session the browser and playwright references
are untouched and no browser-close or runtime-stop is issued, while on a
non-shared session both are reset and the close/stop calls are issued
whenever the references exist; and the entire outcome is independent of
which close calls fail, so no failure propagates. -/
theorem cleanup_spec (env : CleanupEnv) (st : SessionState) :
    (cleanup env st).1.page = none
    ∧ (cleanup env st).1.context = none
    ∧ (st.connectedOverCdp = true →
        (cleanup env st).1.browser = st.browser
        ∧ (cleanup env st).1.playwright = st.playwright
        ∧ Action.closeBrowser ∉ (cleanup env st).2
        ∧ Action.stopPlaywright ∉ (cleanup env st).2)
    ∧ (st.connectedOverCdp = false →
        (cleanup env st).1.browser = none
        ∧ (cleanup env st).1.playwright = none
        ∧ (st.browser.isSome → Action.closeBrowser ∈ (cleanup env st).2)
        ∧ (st.playwright.isSome → Action.stopPlaywright ∈ (cleanup env st).2))
    ∧ (∀ env1 : CleanupEnv, cleanup env1 st = cleanup env st) := by
  refine ⟨rfl, rfl, ?_, ?_, ?_⟩
  · intro hcdp
    refine ⟨by simp [cleanup, hcdp], by simp [cleanup, hcdp], ?_, ?_⟩ <;>
      cases hp : st.page <;>
        simp [cleanup, hcdp, hp, closeOutcome]
  · intro hcdp
    refine ⟨by simp [cleanup, hcdp], by simp [cleanup, hcdp], ?_, ?_⟩ <;>
      intro hsome <;>
        cases hp : st.page <;>
          simp [cleanup, hcdp, hp, hsome, closeOutcome]
  · intro env1
    cases hp : st.page <;> simp [cleanup, hp, closeOutcome]

/-- Witness for C4 on two concrete sessions, one shared-link and one
owned. -/
theorem cleanup_spec_witness :
    (cleanup quietCleanupEnv ⟨some 7, some 3, some ⟨1, false, none⟩, some 9, true⟩).1.browser
        = some 7
    ∧ (cleanup quietCleanupEnv ⟨some 7, some 3, some ⟨1, false, none⟩, some 9, true⟩).1.playwright
        = some 9
    ∧ (cleanup quietCleanupEnv ⟨some 7, some 3, some ⟨1, false, none⟩, some 9, false⟩).1.browser
        = none
    ∧ Action.closeBrowser
        ∈ (cleanup quietCleanupEnv ⟨some 7, some 3, some ⟨1, false, none⟩, some 9, false⟩).2 := by
  refine ⟨?_, ?_, ?_, ?_⟩
  · exact ((cleanup_spec quietCleanupEnv ⟨some 7, some 3, some ⟨1, false, none⟩, some 9, true⟩).2.2.1 rfl).1
  · exact ((cleanup_spec quietCleanupEnv ⟨some 7, some 3, some ⟨1, false, none⟩, some 9, true⟩).2.2.1 rfl).2.1
  · exact ((cleanup_spec quietCleanupEnv ⟨some 7, some 3, some ⟨1, false, none⟩, some 9, false⟩).2.2.2.1 rfl).1
  · exact ((cleanup_spec quietCleanupEnv ⟨some 7, some 3, some ⟨1, false, none⟩, some 9, false⟩).2.2.2.1 rfl).2.2.1 (by decide)

/-- Embeds `_ensure_browser`: when the browser reference or the page
reference is None, run `initialize`; raise when it reports failure. -/
def ensureBrowser (env : InitEnv) (cenv : CleanupEnv) (st : SessionState) :
    Except String (SessionState × List Action) :=
  if st.browser.isNone ∨ st.page.isNone then
    let r := initSession env cenv st
    if r.ok then Except.ok (r.state, r.actions)
    else Except.error ("Unable to initialize browser resources")
  else Except.ok (st, [])

/-- Fresh ids handed out when `_ensure_page` has to create a context or a
page outside the initialization path. -/
structure PageEnv where
  newCtxId : Nat
  newPageId : Nat
deriving Repr, DecidableEq

/-- Embeds `_ensure_page`: ensure the browser, then create a dedicated
context when none exists, then create a new page when the page reference
is None or the page is closed; returns the (possibly new) page. -/
def ensurePage (env : InitEnv) (cenv : CleanupEnv) (penv : PageEnv) (st : SessionState) :
    Except String (PageState × SessionState × List Action) :=
  match ensureBrowser env cenv st with
  | Except.error e => Except.error e
  | Except.ok (st1, acts1) =>
    let ctxStep : SessionState × List Action :=
      match st1.context with
      | none => ({ st1 with context := some penv.newCtxId }, [Action.newContext])
      | some _ => (st1, [])
    match ctxStep.1.page with
    | none =>
      let p : PageState := ⟨penv.newPageId, false, none⟩
      Except.ok (p, { ctxStep.1 with page := some p }, acts1 ++ ctxStep.2 ++ [Action.newPage])
    | some p =>
      if p.isClosed then
        let p1 : PageState := ⟨penv.newPageId, false, none⟩
        Except.ok (p1, { ctxStep.1 with page := some p1 }, acts1 ++ ctxStep.2 ++ [Action.newPage])
      else Except.ok (p, ctxStep.1, acts1 ++ ctxStep.2)

theorem ensurePage_ready (env : InitEnv) (cenv : CleanupEnv) (penv : PageEnv)
    (b c pw : Nat) (cdp : Bool) (p : PageState) (hlive : p.isClosed = false) :
    ensurePage env cenv penv ⟨some b, some c, some p, some pw, cdp⟩
      = Except.ok (p, ⟨some b, some c, some p, some pw, cdp⟩, []) := by
  simp [ensurePage, ensureBrowser, hlive]

/-- C8: on a READY session (browser, context and live page all present)
`_ensure_page` is a no-op returning the very same page and state with no
remote call; when the page reference exists but the page was externally
closed, a fresh page is created in the existing context — the trace is
exactly one new_page call, with no CDP connection re-established and the
browser, context and playwright references unchanged. -/
theorem ensurePage_idempotent (env : InitEnv) (cenv : CleanupEnv) (penv : PageEnv)
    (b c pw : Nat) (cdp : Bool) (p : PageState) :
    (p.isClosed = false →
      ensurePage env cenv penv ⟨some b, some c, some p, some pw, cdp⟩
        = Except.ok (p, ⟨some b, some c, some p, some pw, cdp⟩, []))
    ∧ (p.isClosed = true →
      ensurePage env cenv penv ⟨some b, some c, some p, some pw, cdp⟩
        = Except.ok (⟨penv.newPageId, false, none⟩,
            ⟨some b, some c, some ⟨penv.newPageId, false, none⟩, some pw, cdp⟩,
            [Action.newPage])) := by
  constructor
  · intro hlive
    exact ensurePage_ready env cenv penv b c pw cdp p hlive
  · intro hclosed
    simp [ensurePage, ensureBrowser, hclosed]

/-- Witness for C8: a live page is returned unchanged with an empty
trace, and a closed page is replaced by a fresh one with a single
new_page call. -/
theorem ensurePage_idempotent_witness :
    ensurePage allFailEnv quietCleanupEnv ⟨5, 6⟩ ⟨some 1, some 2, some ⟨3, false, none⟩, some 4, true⟩
        = Except.ok (⟨3, false, none⟩, ⟨some 1, some 2, some ⟨3, false, none⟩, some 4, true⟩, [])
    ∧ ensurePage allFailEnv quietCleanupEnv ⟨5, 6⟩ ⟨some 1, some 2, some ⟨3, true, none⟩, some 4, true⟩
        = Except.ok (⟨6, false, none⟩, ⟨some 1, some 2, some ⟨6, false, none⟩, some 4, true⟩,
            [Action.newPage]) :=
  ⟨(ensurePage_idempotent allFailEnv quietCleanupEnv ⟨5, 6⟩ 1 2 4 true ⟨3, false, none⟩).1 rfl,
   (ensurePage_idempotent allFailEnv quietCleanupEnv ⟨5, 6⟩ 1 2 4 true ⟨3, true, none⟩).2 rfl⟩

/-- Embeds `_get_element_by_index`: None when the page has no
interactive_elements_cache attribute, when the cache is empty, or when
the index is not below the cache length; otherwise the result of
query_selector on the marker-attribute selector (`qs` is the oracle for
that remote lookup, element handles are Nat ids). -/
def getElementByIndex (qs : Nat → Option Nat) (p : PageState) (index : Nat) : Option Nat :=
  match p.cache with
  | none => none
  | some cache =>
    if cache.isEmpty ∨ cache.length ≤ index then none
    else qs index

theorem getElementByIndex_out_of_range (qs : Nat → Option Nat) (pid : Nat) (closed : Bool)
    (cache? : Option (List IEntry)) (n : Nat) (hn : (cache?.getD []).length ≤ n) :
    getElementByIndex qs ⟨pid, closed, cache?⟩ n = none := by
  cases cache? with
  | none => rfl
  | some cache => simp_all [getElementByIndex]

theorem getElementByIndex_in_range (qs : Nat → Option Nat) (pid : Nat) (closed : Bool)
    (cache : List IEntry) (idx : Nat) (hidx : idx < cache.length) :
    getElementByIndex qs ⟨pid, closed, some cache⟩ idx = qs idx := by
  have h1 : cache.isEmpty = false := by
    cases cache with
    | nil => simp at hidx
    | cons a l => rfl
  simp [getElementByIndex, h1, Nat.not_le.mpr hidx]

/-- Key name sent by the pressEnter handling. -/
def enterKey : String :=
  "Enter"

/-- Oracle for the remote calls of `click`: the query_selector lookup,
the visibility-check evaluate, whether page.mouse.click raises (with the
error text), and whether element.click raises. -/
structure ClickEnv where
  querySelector : Nat → Option Nat
  isVisibleEval : Nat → Bool
  mouseClickFails : Option String
  elementClickFails : Nat → Option String

/-- Embeds `click`: ensure the page; when both coordinates are given,
click the viewport point directly (this call is outside any try/except:
an exception propagates); otherwise, when an index is given, resolve it
through the snapshot inside a try/except — unresolved indices give a
failure result naming the index, an invisible element is scrolled into
view followed by a 1-second sleep, the element click runs with a
5-second timeout, and any exception becomes a failure result carrying
the error text; with no target at all nothing happens.  Every path that
finishes the body returns success. -/
def click (env : InitEnv) (cenv : CleanupEnv) (penv : PageEnv) (kenv : ClickEnv)
    (st : SessionState) (index : Option Nat) (cx cy : Option Int) :
    Except String (ToolResult × SessionState × List Action) :=
  match ensurePage env cenv penv st with
  | Except.error e => Except.error e
  | Except.ok (p, st1, acts0) =>
    match cx, cy with
    | some x, some y =>
      match kenv.mouseClickFails with
      | some err => Except.error err
      | none => Except.ok (⟨true, none, none⟩, st1, acts0 ++ [Action.mouseClick x y])
    | _, _ =>
      match index with
      | some idx =>
        match getElementByIndex kenv.querySelector p idx with
        | none =>
          Except.ok
            (⟨false, some ("Cannot find interactive element with index " ++ toString idx), none⟩,
              st1, acts0)
        | some hdl =>
          let visActs :=
            if kenv.isVisibleEval hdl then []
            else [Action.scrollIntoView hdl, Action.sleep 1]
          match kenv.elementClickFails hdl with
          | some err =>
            Except.ok (⟨false, some ("Failed to click element: " ++ err), none⟩, st1,
              acts0 ++ visActs)
          | none =>
            Except.ok (⟨true, none, none⟩, st1,
              acts0 ++ visActs ++ [Action.elementClickTimeout hdl])
      | none => Except.ok (⟨true, none, none⟩, st1, acts0)

/-- C2: on a ready session, for any index at or past the end of the
current snapshot — including an empty cache or a page whose cache
attribute was never set — `click` returns a failure result whose message
names the index, without raising. -/
theorem click_index_out_of_range (env : InitEnv) (cenv : CleanupEnv) (penv : PageEnv)
    (kenv : ClickEnv) (b c pw pid : Nat) (cdp : Bool) (cache? : Option (List IEntry))
    (n : Nat) (hn : (cache?.getD []).length ≤ n) :
    click env cenv penv kenv ⟨some b, some c, some ⟨pid, false, cache?⟩, some pw, cdp⟩
        (some n) none none
      = Except.ok
          (⟨false, some ("Cannot find interactive element with index " ++ toString n), none⟩,
            ⟨some b, some c, some ⟨pid, false, cache?⟩, some pw, cdp⟩, []) := by
  have h1 := ensurePage_ready env cenv penv b c pw cdp ⟨pid, false, cache?⟩ rfl
  have h2 := getElementByIndex_out_of_range kenv.querySelector pid false cache? n hn
  simp [click, h1, h2]

/-- Witness for C2: concrete out-of-range clicks against an absent cache
and against a one-entry cache. -/
theorem click_index_out_of_range_witness :
    ((none : Option (List IEntry)).getD []).length ≤ 0
    ∧ ((some [⟨0, "button", "ok", manusSelector 0⟩] : Option (List IEntry)).getD []).length ≤ 5
    ∧ click allFailEnv quietCleanupEnv ⟨5, 6⟩ ⟨fun _ => none, fun _ => true, none, fun _ => none⟩
        ⟨some 1, some 2, some ⟨3, false, none⟩, some 4, true⟩ (some 0) none none
      = Except.ok
          (⟨false, some ("Cannot find interactive element with index " ++ toString 0), none⟩,
            ⟨some 1, some 2, some ⟨3, false, none⟩, some 4, true⟩, [])
    ∧ click allFailEnv quietCleanupEnv ⟨5, 6⟩ ⟨fun _ => none, fun _ => true, none, fun _ => none⟩
        ⟨some 1, some 2, some ⟨3, false, some [⟨0, "button", "ok", manusSelector 0⟩]⟩, some 4, true⟩
        (some 5) none none
      = Except.ok
          (⟨false, some ("Cannot find interactive element with index " ++ toString 5), none⟩,
            ⟨some 1, some 2, some ⟨3, false, some [⟨0, "button", "ok", manusSelector 0⟩]⟩,
              some 4, true⟩, []) :=
  ⟨by decide, by decide,
    click_index_out_of_range allFailEnv quietCleanupEnv ⟨5, 6⟩
      ⟨fun _ => none, fun _ => true, none, fun _ => none⟩ 1 2 4 3 true none 0 (by decide),
    click_index_out_of_range allFailEnv quietCleanupEnv ⟨5, 6⟩
      ⟨fun _ => none, fun _ => true, none, fun _ => none⟩ 1 2 4 3 true
      (some [⟨0, "button", "ok", manusSelector 0⟩]) 5 (by decide)⟩

/-- Click environment whose viewport-point click raises. -/
def mouseFailEnv : ClickEnv :=
  ⟨fun _ => none, fun _ => true, some ("boom"), fun _ => none⟩

/-- C6 counterexample: a coordinate-targeted click whose page.mouse.click
raises propagates the exception to the caller — that call sits outside
the try/except, so the claim that every click converts exceptions into a
failure result is false. -/
theorem click_coordinate_raises_counterexample :
    click allFailEnv quietCleanupEnv ⟨5, 6⟩ mouseFailEnv
        ⟨some 1, some 2, some ⟨3, false, none⟩, some 4, true⟩ none (some 10) (some 20)
      = Except.error ("boom") := by
  rfl

/-- C6 (amended): on a ready session, an index-targeted click never
raises: whatever the remote outcomes, the call returns a result, and an
exception from the element click becomes a failure result carrying the
error text; a coordinate-targeted click, by contrast, propagates a
page.mouse.click exception to the caller. -/
theorem click_exception_boundary (env : InitEnv) (cenv : CleanupEnv) (penv : PageEnv)
    (kenv : ClickEnv) (b c pw : Nat) (cdp : Bool) (p : PageState) (hlive : p.isClosed = false)
    (idx : Nat) :
    (click env cenv penv kenv ⟨some b, some c, some p, some pw, cdp⟩ (some idx) none none).isOk
        = true
    ∧ (∀ hdl err, getElementByIndex kenv.querySelector p idx = some hdl →
        kenv.elementClickFails hdl = some err →
        click env cenv penv kenv ⟨some b, some c, some p, some pw, cdp⟩ (some idx) none none
          = Except.ok (⟨false, some ("Failed to click element: " ++ err), none⟩,
              ⟨some b, some c, some p, some pw, cdp⟩,
              if kenv.isVisibleEval hdl then [] else [Action.scrollIntoView hdl, Action.sleep 1]))
    ∧ (∀ x y err, kenv.mouseClickFails = some err →
        click env cenv penv kenv ⟨some b, some c, some p, some pw, cdp⟩ (some idx)
            (some x) (some y)
          = Except.error err) := by
  have h1 := ensurePage_ready env cenv penv b c pw cdp p hlive
  refine ⟨?_, ?_, ?_⟩
  · cases hg : getElementByIndex kenv.querySelector p idx with
    | none => simp [click, h1, hg, Except.isOk, Except.toBool]
    | some hdl =>
      cases hc : kenv.elementClickFails hdl with
      | none => simp [click, h1, hg, hc, Except.isOk, Except.toBool]
      | some err => simp [click, h1, hg, hc, Except.isOk, Except.toBool]
  · intro hdl err hg hc
    simp [click, h1, hg, hc]
  · intro x y err hm
    simp [click, h1, hm]

/-- Witness for C6 (amended) at concrete inputs: the index path returns a
failure result when the element click raises, and the coordinate path
propagates the mouse-click error. -/
theorem click_exception_boundary_witness :
    getElementByIndex (fun _ => some 42) ⟨3, false, some [⟨0, "button", "ok", manusSelector 0⟩]⟩ 0
        = some 42
    ∧ (⟨fun _ => some 42, fun _ => true, some ("boom"), fun _ => some ("dead")⟩ :
        ClickEnv).elementClickFails 42 = some ("dead")
    ∧ click allFailEnv quietCleanupEnv ⟨5, 6⟩
        ⟨fun _ => some 42, fun _ => true, some ("boom"), fun _ => some ("dead")⟩
        ⟨some 1, some 2, some ⟨3, false, some [⟨0, "button", "ok", manusSelector 0⟩]⟩, some 4, true⟩
        (some 0) none none
      = Except.ok (⟨false, some ("Failed to click element: " ++ "dead"), none⟩,
          ⟨some 1, some 2, some ⟨3, false, some [⟨0, "button", "ok", manusSelector 0⟩]⟩,
            some 4, true⟩, [])
    ∧ click allFailEnv quietCleanupEnv ⟨5, 6⟩
        ⟨fun _ => some 42, fun _ => true, some ("boom"), fun _ => some ("dead")⟩
        ⟨some 1, some 2, some ⟨3, false, some [⟨0, "button", "ok", manusSelector 0⟩]⟩, some 4, true⟩
        (some 0) (some 10) (some 20)
      = Except.error ("boom") := by
  refine ⟨by decide, rfl, ?_, ?_⟩
  · exact (click_exception_boundary allFailEnv quietCleanupEnv ⟨5, 6⟩
      ⟨fun _ => some 42, fun _ => true, some ("boom"), fun _ => some ("dead")⟩ 1 2 4 true
      ⟨3, false, some [⟨0, "button", "ok", manusSelector 0⟩]⟩ rfl 0).2.1 42 "dead"
        (by decide) rfl
  · exact (click_exception_boundary allFailEnv quietCleanupEnv ⟨5, 6⟩
      ⟨fun _ => some 42, fun _ => true, some ("boom"), fun _ => some ("dead")⟩ 1 2 4 true
      ⟨3, false, some [⟨0, "button", "ok", manusSelector 0⟩]⟩ rfl 0).2.2 10 20 "boom" rfl

/-- Oracle for the remote calls of `input`: the query_selector lookup,
whether page.mouse.click raises, whether the atomic clear-then-type path
(element.fill of the empty string followed by element.type) raises, and
whether the fallback click-then-keyboard-type path raises (with error
text).  The exact point of failure inside each two-call path is
abstracted: the trace records the attempt up to its first call. -/
structure InputEnv where
  querySelector : Nat → Option Nat
  mouseClickFails : Option String
  atomicFillFails : Nat → Bool
  fallbackFails : Nat → Option String

/-- Embeds `input`: ensure the page; with both coordinates, click the
point and type on the keyboard (outside any try/except); with an index,
resolve the element (unresolved gives a failure result naming the index),
then try the atomic clear-then-type, falling back to click plus keyboard
type when it raises; an exception escaping the fallback becomes a failure
result and skips the rest.  Whenever the body reaches its tail and
press_enter is set, an Enter key press is issued, and the call returns
success. -/
def inputOp (env : InitEnv) (cenv : CleanupEnv) (penv : PageEnv) (ienv : InputEnv)
    (st : SessionState) (text : String) (pressEnter : Bool)
    (index : Option Nat) (cx cy : Option Int) :
    Except String (ToolResult × SessionState × List Action) :=
  match ensurePage env cenv penv st with
  | Except.error e => Except.error e
  | Except.ok (p, st1, acts0) =>
    let enterActs : List Action := if pressEnter then [Action.pressKey enterKey] else []
    match cx, cy with
    | some x, some y =>
      match ienv.mouseClickFails with
      | some err => Except.error err
      | none =>
        Except.ok (⟨true, none, none⟩, st1,
          acts0 ++ [Action.mouseClick x y, Action.keyboardType text] ++ enterActs)
    | _, _ =>
      match index with
      | some idx =>
        match getElementByIndex ienv.querySelector p idx with
        | none =>
          Except.ok
            (⟨false, some ("Cannot find interactive element with index " ++ toString idx), none⟩,
              st1, acts0)
        | some hdl =>
          if ienv.atomicFillFails hdl then
            match ienv.fallbackFails hdl with
            | some err =>
              Except.ok (⟨false, some ("Failed to input text: " ++ err), none⟩, st1,
                acts0 ++ [Action.fillClear hdl])
            | none =>
              Except.ok (⟨true, none, none⟩, st1,
                acts0 ++ [Action.fillClear hdl, Action.elementClick hdl, Action.keyboardType text]
                  ++ enterActs)
          else
            Except.ok (⟨true, none, none⟩, st1,
              acts0 ++ [Action.fillClear hdl, Action.typeOn hdl text] ++ enterActs)
      | none => Except.ok (⟨true, none, none⟩, st1, acts0 ++ enterActs)

/-- C7: on a ready session with a resolvable index, `input` always
attempts the atomic clear-then-type first (the trace starts with the
clear); when that path raises and the fallback succeeds, the trace shows
the fallback click plus keyboard type; and in both completed paths a set
press_enter appends a trailing Enter key press. -/
theorem input_fallback_and_enter (env : InitEnv) (cenv : CleanupEnv) (penv : PageEnv)
    (ienv : InputEnv) (b c pw pid : Nat) (cdp : Bool) (cache : List IEntry)
    (idx hdl : Nat) (text : String) (pressEnter : Bool)
    (hidx : idx < cache.length)
    (hq : ienv.querySelector idx = some hdl)
    (hfb : ienv.fallbackFails hdl = none) :
    inputOp env cenv penv ienv ⟨some b, some c, some ⟨pid, false, some cache⟩, some pw, cdp⟩
        text pressEnter (some idx) none none
      = Except.ok (⟨true, none, none⟩,
          ⟨some b, some c, some ⟨pid, false, some cache⟩, some pw, cdp⟩,
          (if ienv.atomicFillFails hdl then
            [Action.fillClear hdl, Action.elementClick hdl, Action.keyboardType text]
          else [Action.fillClear hdl, Action.typeOn hdl text])
            ++ (if pressEnter then [Action.pressKey enterKey] else [])) := by
  have h1 := ensurePage_ready env cenv penv b c pw cdp ⟨pid, false, some cache⟩ rfl
  have h2 := getElementByIndex_in_range ienv.querySelector pid false cache idx hidx
  cases hf : ienv.atomicFillFails hdl <;>
    simp [inputOp, h1, h2, hq, hf, hfb]

/-- Witness for C7: a failing atomic path falls back to click plus type
and still presses Enter, and a succeeding atomic path also presses
Enter. -/
theorem input_fallback_and_enter_witness :
    (0 < ([⟨0, "input", "v", manusSelector 0⟩] : List IEntry).length)
    ∧ ((⟨fun _ => some 42, none, fun _ => true, fun _ => none⟩ : InputEnv).querySelector 0
        = some 42)
    ∧ ((⟨fun _ => some 42, none, fun _ => true, fun _ => none⟩ : InputEnv).fallbackFails 42
        = none)
    ∧ inputOp allFailEnv quietCleanupEnv ⟨5, 6⟩ ⟨fun _ => some 42, none, fun _ => true, fun _ => none⟩
        ⟨some 1, some 2, some ⟨3, false, some [⟨0, "input", "v", manusSelector 0⟩]⟩, some 4, true⟩
        "hello" true (some 0) none none
      = Except.ok (⟨true, none, none⟩,
          ⟨some 1, some 2, some ⟨3, false, some [⟨0, "input", "v", manusSelector 0⟩]⟩,
            some 4, true⟩,
          [Action.fillClear 42, Action.elementClick 42, Action.keyboardType "hello",
            Action.pressKey enterKey])
    ∧ inputOp allFailEnv quietCleanupEnv ⟨5, 6⟩
        ⟨fun _ => some 42, none, fun _ => false, fun _ => none⟩
        ⟨some 1, some 2, some ⟨3, false, some [⟨0, "input", "v", manusSelector 0⟩]⟩, some 4, true⟩
        "hello" true (some 0) none none
      = Except.ok (⟨true, none, none⟩,
          ⟨some 1, some 2, some ⟨3, false, some [⟨0, "input", "v", manusSelector 0⟩]⟩,
            some 4, true⟩,
          [Action.fillClear 42, Action.typeOn 42 "hello", Action.pressKey enterKey]) := by
  refine ⟨by decide, rfl, rfl, ?_, ?_⟩
  · exact input_fallback_and_enter allFailEnv quietCleanupEnv ⟨5, 6⟩
      ⟨fun _ => some 42, none, fun _ => true, fun _ => none⟩ 1 2 4 3 true
      [⟨0, "input", "v", manusSelector 0⟩] 0 42 "hello" true (by decide) rfl rfl
  · exact input_fallback_and_enter allFailEnv quietCleanupEnv ⟨5, 6⟩
      ⟨fun _ => some 42, none, fun _ => false, fun _ => none⟩ 1 2 4 3 true
      [⟨0, "input", "v", manusSelector 0⟩] 0 42 "hello" true (by decide) rfl rfl

/-- C10: on a ready session, `click` with no index and no complete
coordinate pair performs no click action and still returns success, and
`input` under the same conditions types nothing yet returns success,
still pressing Enter on the page when press_enter is set. -/
theorem no_target_still_success (env : InitEnv) (cenv : CleanupEnv) (penv : PageEnv)
    (kenv : ClickEnv) (ienv : InputEnv) (b c pw : Nat) (cdp : Bool) (p : PageState)
    (hlive : p.isClosed = false) (cx cy : Option Int)
    (hcoord : ¬(cx.isSome = true ∧ cy.isSome = true)) (text : String) (pressEnter : Bool) :
    click env cenv penv kenv ⟨some b, some c, some p, some pw, cdp⟩ none cx cy
        = Except.ok (⟨true, none, none⟩, ⟨some b, some c, some p, some pw, cdp⟩, [])
    ∧ inputOp env cenv penv ienv ⟨some b, some c, some p, some pw, cdp⟩ text pressEnter
          none cx cy
        = Except.ok (⟨true, none, none⟩, ⟨some b, some c, some p, some pw, cdp⟩,
            if pressEnter then [Action.pressKey enterKey] else []) := by
  have h1 := ensurePage_ready env cenv penv b c pw cdp p hlive
  cases cx <;> cases cy <;> simp_all [click, inputOp]

/-- Witness for C10: concrete calls with neither target given. -/
theorem no_target_still_success_witness :
    ((none : Option Int).isSome = true ∧ (none : Option Int).isSome = true → False)
    ∧ click allFailEnv quietCleanupEnv ⟨5, 6⟩ mouseFailEnv
          ⟨some 1, some 2, some ⟨3, false, none⟩, some 4, true⟩ none none none
        = Except.ok (⟨true, none, none⟩, ⟨some 1, some 2, some ⟨3, false, none⟩, some 4, true⟩, [])
    ∧ inputOp allFailEnv quietCleanupEnv ⟨5, 6⟩ ⟨fun _ => none, none, fun _ => false, fun _ => none⟩
          ⟨some 1, some 2, some ⟨3, false, none⟩, some 4, true⟩ "hi" true none none none
        = Except.ok (⟨true, none, none⟩, ⟨some 1, some 2, some ⟨3, false, none⟩, some 4, true⟩,
            [Action.pressKey enterKey]) := by
  refine ⟨by simp, ?_, ?_⟩
  · exact (no_target_still_success allFailEnv quietCleanupEnv ⟨5, 6⟩ mouseFailEnv
      ⟨fun _ => none, none, fun _ => false, fun _ => none⟩ 1 2 4 true ⟨3, false, none⟩ rfl
      none none (by simp) "hi" true).1
  · exact (no_target_still_success allFailEnv quietCleanupEnv ⟨5, 6⟩ mouseFailEnv
      ⟨fun _ => none, none, fun _ => false, fun _ => none⟩ 1 2 4 true ⟨3, false, none⟩ rfl
      none none (by simp) "hi" true).2

/-- Oracle for `navigate`: whether page.goto raises (with the error
text), and the candidate interactive elements and viewport of the page
once the load attempt settles (the partially or fully loaded DOM). -/
structure NavEnv where
  gotoFails : Option String
  dom : List DomElement
  viewport : Viewport

/-- Embeds `_extract_interactive_elements` on an ensured page: the cache
is cleared, the scan script runs over the candidate elements, the cache
is set to the scanned entries and the formatted lines are returned.  The
internal page.evaluate round-trip is not traced. -/
def extractInteractiveElements (nenv : NavEnv) (p : PageState) : List String × PageState :=
  let entries := (scanElements nenv.viewport nenv.dom 0).map (fun q => q.1)
  (entries.map formatEntry, { p with cache := some entries })

/-- Embeds `navigate`: ensure the page; inside the outer try, clear the
interactive-element cache, then attempt page.goto inside an inner
try/except that only logs a failure; finally recompute the interactive
elements and return them in a success result.  The outer except (failure
result) is unreachable here because nothing after the inner try raises in
this model. -/
def navigate (env : InitEnv) (cenv : CleanupEnv) (penv : PageEnv) (nenv : NavEnv)
    (st : SessionState) (url : String) :
    Except String (ToolResult × SessionState × List Action) :=
  match ensurePage env cenv penv st with
  | Except.error e => Except.error e
  | Except.ok (p, st1, acts0) =>
    let pCleared : PageState := { p with cache := some [] }
    let gotoOutcome : Except String Unit :=
      match nenv.gotoFails with
      | some err => Except.error err
      | none => Except.ok ()
    match gotoOutcome with
    | _ =>
      let ex := extractInteractiveElements nenv pCleared
      Except.ok (⟨true, none, some (ResultData.interactiveElements ex.1)⟩,
        { st1 with page := some ex.2 },
        acts0 ++ [Action.clearCache, Action.gotoUrl url])

/-- C5: on a ready session, `navigate` clears the snapshot before the
load is attempted (the clear precedes the goto in the trace), and even
when the goto raises the call still returns success carrying the freshly
recomputed — possibly empty — interactive-element listing, with the cache
set to the new entries. -/
theorem navigate_load_failure_nonfatal (env : InitEnv) (cenv : CleanupEnv) (penv : PageEnv)
    (nenv : NavEnv) (b c pw pid : Nat) (cdp : Bool) (cache? : Option (List IEntry))
    (url err : String) (_hfail : nenv.gotoFails = some err) :
    navigate env cenv penv nenv ⟨some b, some c, some ⟨pid, false, cache?⟩, some pw, cdp⟩ url
      = Except.ok
          (⟨true, none,
            some (ResultData.interactiveElements
              (((scanElements nenv.viewport nenv.dom 0).map (fun q => q.1)).map formatEntry))⟩,
            ⟨some b, some c,
              some ⟨pid, false, some ((scanElements nenv.viewport nenv.dom 0).map (fun q => q.1))⟩,
              some pw, cdp⟩,
            [Action.clearCache, Action.gotoUrl url]) := by
  have h1 := ensurePage_ready env cenv penv b c pw cdp ⟨pid, false, cache?⟩ rfl
  simp [navigate, h1, extractInteractiveElements]

/-- Witness for C5: a concrete failing navigation on an empty DOM still
succeeds with an empty element list. -/
theorem navigate_load_failure_nonfatal_witness :
    (⟨some ("timeout"), [], ⟨800, 600⟩⟩ : NavEnv).gotoFails = some ("timeout")
    ∧ navigate allFailEnv quietCleanupEnv ⟨5, 6⟩ ⟨some ("timeout"), [], ⟨800, 600⟩⟩
        ⟨some 1, some 2, some ⟨3, false, none⟩, some 4, true⟩ "https://example.com"
      = Except.ok
          (⟨true, none, some (ResultData.interactiveElements [])⟩,
            ⟨some 1, some 2, some ⟨3, false, some []⟩, some 4, true⟩,
            [Action.clearCache, Action.gotoUrl "https://example.com"]) :=
  ⟨rfl,
    navigate_load_failure_nonfatal allFailEnv quietCleanupEnv ⟨5, 6⟩
      ⟨some ("timeout"), [], ⟨800, 600⟩⟩ 1 2 4 3 true none "https://example.com" "timeout" rfl⟩

/-- Public operations of the browser core, as listed in the external
interface. -/
inductive BrowserOp where
  | init
  | cleanupOp
  | navigateOp
  | restart
  | viewPage
  | clickOp
  | inputOpc
  | moveMouse
  | pressKeyOp
  | selectOption
  | scrollUp
  | scrollDown
  | screenshot
  | consoleExec
  | consoleView
deriving Repr, DecidableEq

/-- Shape of the value an operation returns to its caller. -/
inductive RetKind where
  | toolResult
  | rawBytes
  | boolean
  | noValue
deriving Repr, DecidableEq

/-- Return shape of each public operation, read off the source: every
operation builds a ToolResult except `initialize` (returns True/False),
`cleanup` (returns None), and `screenshot` (returns the PNG bytes of
page.screenshot directly). -/
def opReturnKind : BrowserOp → RetKind
  | BrowserOp.init => RetKind.boolean
  | BrowserOp.cleanupOp => RetKind.noValue
  | BrowserOp.screenshot => RetKind.rawBytes
  | BrowserOp.navigateOp => RetKind.toolResult
  | BrowserOp.restart => RetKind.toolResult
  | BrowserOp.viewPage => RetKind.toolResult
  | BrowserOp.clickOp => RetKind.toolResult
  | BrowserOp.inputOpc => RetKind.toolResult
  | BrowserOp.moveMouse => RetKind.toolResult
  | BrowserOp.pressKeyOp => RetKind.toolResult
  | BrowserOp.selectOption => RetKind.toolResult
  | BrowserOp.scrollUp => RetKind.toolResult
  | BrowserOp.scrollDown => RetKind.toolResult
  | BrowserOp.consoleExec => RetKind.toolResult
  | BrowserOp.consoleView => RetKind.toolResult

/-- C9 counterexample: `screenshot` is a public operation other than
top-level initialization, yet it returns raw PNG bytes, not the
ToolResult envelope. -/
theorem screenshot_not_toolresult_counterexample :
    opReturnKind BrowserOp.screenshot = RetKind.rawBytes
    ∧ RetKind.rawBytes ≠ RetKind.toolResult := by
  constructor
  · rfl
  · decide

/-- C9 (amended): every public operation except top-level initialization
(boolean), screenshot (raw bytes) and cleanup (no value) returns the
uniform ToolResult envelope. -/
theorem op_return_kind_uniform (op : BrowserOp) (h1 : op ≠ BrowserOp.init)
    (h2 : op ≠ BrowserOp.screenshot) (h3 : op ≠ BrowserOp.cleanupOp) :
    opReturnKind op = RetKind.toolResult := by
  cases op <;> first | rfl | simp_all

/-- Witness for C9 (amended) at the click operation. -/
theorem op_return_kind_uniform_witness :
    BrowserOp.clickOp ≠ BrowserOp.init
    ∧ BrowserOp.clickOp ≠ BrowserOp.screenshot
    ∧ BrowserOp.clickOp ≠ BrowserOp.cleanupOp
    ∧ opReturnKind BrowserOp.clickOp = RetKind.toolResult :=
  ⟨by decide, by decide, by decide,
    op_return_kind_uniform BrowserOp.clickOp (by decide) (by decide) (by decide)⟩

end PlaywrightBrowser
